import Mathlib

/-!
Shallow embedding of `schema.go` (package tools): the schema-assembly entry
point `ExecutableSchema.Make`, the two wrapper functions
`MakeExecutableSchema` / `MakeExecutableSchemaWithContext`, and
`registry.buildSchemaFromAST`.

The registry internals (`newRegistry`, `getObject`, `resolveDefinitions`,
`typeArray`, `directiveArray`, `applyDirectives`) and the external library
function `graphql.NewSchema` are not part of `schema.go`; they are abstracted
as an environment `Env σ` of functions over an abstract registry-cache type
`σ`, so theorems quantify over every possible behavior of those steps.  Where
the assembly logic depends on a specific behavior of a missing piece, a
definition modelled from the spec is used and marked as such.

Go's `(value, error)` multiple returns are modelled as pairs with an
`Option Err` component; a `nil` object pointer is `none`.  The one side
effect of `Make` — pretty-printing the dependency map to stdout when
`graphql.NewSchema` fails in the inferred-root path — is modelled by the
`printed` component of `MakeResult`.
-/

namespace GQLTools

/-- Runtime object type (`*graphql.Object`), identified by its name. -/
abbrev GObject := String

/-- An entry of the registry's type array (`graphql.Type`). -/
abbrev GType := String

/-- An entry of the registry's directive array (`*graphql.Directive`). -/
abbrev GDirective := String

/-- A GraphQL extension (`graphql.Extension`), passed through verbatim. -/
abbrev Ext := String

/-- The dependency map produced by `registry.IdentifyDependencies`. -/
abbrev DepMap := List (String × List String)

/-- A Go `error` value. -/
structure Err where
  msg : String
deriving DecidableEq, Repr

deriving instance DecidableEq for Except

/-- A `context.Context`: `Context.background` is `context.Background()`. -/
inductive Context where
  | background : Context
  | custom : Nat → Context
deriving DecidableEq, Repr

/-- `TypeDefs interface{}`: a string, a list of strings, or a provider. -/
inductive TypeDefs where
  | str : String → TypeDefs
  | strs : List String → TypeDefs
  | fn : (Unit → List String) → TypeDefs

/-- `Resolvers map[string]interface{}`: binding values are opaque here. -/
abbrev Resolvers := List (String × String)

/-- `SchemaDirectives SchemaDirectiveVisitorMap`: visitor values are opaque. -/
abbrev SchemaDirectiveVisitorMap := List (String × String)

/-- The `ExecutableSchema` configuration struct. -/
structure ExecutableSchema where
  typeDefs : TypeDefs
  resolvers : Resolvers
  schemaDirectives : SchemaDirectiveVisitorMap
  extensions : List Ext

/-- `ast.OperationTypeQuery` / `...Mutation` / `...Subscription`. -/
inductive OperationType where
  | query : OperationType
  | mutation : OperationType
  | subscription : OperationType
deriving DecidableEq, Repr

/-- One `ast.OperationTypeDefinition`: `op.Operation` and `op.Type.Name.Value`. -/
structure OperationTypeDef where
  operation : OperationType
  typeName : String
deriving DecidableEq, Repr

/-- An `ast.SchemaDefinition` node: its operation types and its directives
(directive invocations are opaque names here). -/
structure SchemaDefinition where
  operationTypes : List OperationTypeDef
  directives : List String
deriving DecidableEq, Repr

/-- The merged document: the part of it the assembly logic in `schema.go`
inspects is whether it holds an explicit `SchemaDefinition`; the remaining
declarations are opaque. -/
structure Document where
  definitions : List String
  schemaDefinition : Option SchemaDefinition
deriving DecidableEq, Repr

/-- `graphql.SchemaConfig`.  A `nil` root object pointer is `none`. -/
structure SchemaConfig where
  query : Option GObject := none
  mutation : Option GObject := none
  subscription : Option GObject := none
  types : List GType := []
  directives : List GDirective := []
  extensions : List Ext := []
deriving DecidableEq, Repr

/-- `graphql.Schema` as observable through this core: the data `NewSchema`
derived from its config.  Abstract because the execution engine is an
external collaborator. -/
structure Schema where
  query : Option GObject := none
  mutation : Option GObject := none
  subscription : Option GObject := none
  typeMap : List GType := []
  directives : List GDirective := []
deriving DecidableEq, Repr

/-- The zero value `graphql.Schema{}` returned alongside early errors. -/
def emptySchema : Schema := {}

/-- The `registry` struct, restricted to the fields `schema.go` touches:
`dependencyMap`, `schema` (nil until assigned), `extensions`, and an
abstract `cache` standing for its type/directive construction internals. -/
structure Registry (σ : Type) where
  cache : σ
  dependencyMap : DepMap
  schema : Option Schema
  extensions : List Ext

/-- Behaviors of the construction steps that `schema.go` calls but does not
define: registry methods living elsewhere in the repository and the external
`graphql.NewSchema`.  Each is an arbitrary function; theorems below hold for
every instantiation.  `getObject` and `applyDirectives` act on the abstract
cache `σ`; per the spec the registry's type construction never assigns the
registry's `schema` field, which is therefore not part of `σ`.
`applyDirectives` here is the schema-level invocation site only (the one in
`buildSchemaFromAST`); directive application during type-body construction
is internal to `resolveTypes` / `getObject`. -/
structure Env (σ : Type) where
  concatenateTypeDefs : TypeDefs → Document × Option Err
  newRegistryCache : Context → Resolvers → SchemaDirectiveVisitorMap → List Ext → Document → σ × Option Err
  identifyDependencies : σ → DepMap
  resolveTypes : σ → σ × Option Err
  getObject : σ → String → Except Err GObject × σ
  typeArray : σ → List GType
  directiveArray : σ → List GDirective
  applyDirectives : σ → SchemaConfig → List String → SchemaDefinition → Bool → Except Err SchemaConfig × σ
  newSchema : SchemaConfig → Schema × Option Err

/-- `DefaultRootQueryName`. -/
def DefaultRootQueryName : String := "Query"

/-- `DefaultRootMutationName`. -/
def DefaultRootMutationName : String := "Mutation"

/-- `DefaultRootSubscriptionName`. -/
def DefaultRootSubscriptionName : String := "Subscription"

variable {σ : Type}

/-- Modelled from the spec: `getObject` (registry code not under src/)
returns either the constructed object or an error, never both; the Go idiom
`mutation, _ := registry.getObject(...)` therefore yields a `nil` object
pointer when the lookup failed. -/
def rootOrNil : Except Err GObject → Option GObject
  | .ok object => some object
  | .error _ => none

/-- Modelled from the spec: `newRegistry` (registry code not under src/)
creates a fresh registry carrying the caller's extensions, with no schema
assigned yet and an empty dependency map; its construction internals are the
abstract cache it returns. -/
def newRegistry (env : Env σ) (ctx : Context) (resolvers : Resolvers)
    (directives : SchemaDirectiveVisitorMap) (exts : List Ext)
    (document : Document) : Registry σ × Option Err :=
  match env.newRegistryCache ctx resolvers directives exts document with
  | (cache, e) => ({ cache := cache, dependencyMap := [], schema := none, extensions := exts }, e)

/-- The `for _, op := range definition.OperationTypes` loop of
`buildSchemaFromAST`: each declared operation root is set to the object
`getObject` returns for the declared type name; the first `getObject`
failure returns immediately with that error. -/
def applyOperationTypes (env : Env σ) :
    List OperationTypeDef → σ → SchemaConfig → σ × SchemaConfig × Option Err
  | [], cache, config => (cache, config, none)
  | op :: rest, cache, config =>
    match op.operation with
    | .query =>
      match env.getObject cache op.typeName with
      | (.ok object, cache') =>
        applyOperationTypes env rest cache' { config with query := some object }
      | (.error e, cache') => (cache', config, some e)
    | .mutation =>
      match env.getObject cache op.typeName with
      | (.ok object, cache') =>
        applyOperationTypes env rest cache' { config with mutation := some object }
      | (.error e, cache') => (cache', config, some e)
    | .subscription =>
      match env.getObject cache op.typeName with
      | (.ok object, cache') =>
        applyOperationTypes env rest cache' { config with subscription := some object }
      | (.error e, cache') => (cache', config, some e)

/-- `registry.buildSchemaFromAST`: build a schema config from the full
registry contents, wire the declared operation roots, apply the schema-level
directives with the given `allowThunks`, build the schema, and only on full
success store it in the registry's `schema` field.  Returns the updated
registry together with the Go error return. -/
def buildSchemaFromAST (env : Env σ) (definition : SchemaDefinition)
    (allowThunks : Bool) (c : Registry σ) : Registry σ × Option Err :=
  let schemaConfig : SchemaConfig :=
    { query := none, mutation := none, subscription := none,
      types := env.typeArray c.cache, directives := env.directiveArray c.cache,
      extensions := c.extensions }
  match applyOperationTypes env definition.operationTypes c.cache schemaConfig with
  | (cache1, _, some e) => ({ c with cache := cache1 }, some e)
  | (cache1, schemaConfig, none) =>
    match env.applyDirectives cache1 schemaConfig definition.directives definition allowThunks with
    | (.error e, cache2) => ({ c with cache := cache2 }, some e)
    | (.ok schemaConfig, cache2) =>
      match env.newSchema schemaConfig with
      | (_, some e) => ({ c with cache := cache2 }, some e)
      | (schema, none) => ({ c with cache := cache2, schema := some schema }, none)

/-- Modelled from the spec: `resolveDefinitions` (registry code not under
src/) resolves every declaration of the document against the registry, and
for an explicit `SchemaDefinition` builds the schema via
`buildSchemaFromAST` with thunks disallowed (schema-level directive
application is the final step, `allowThunks = false`). -/
def resolveDefinitions (env : Env σ) (document : Document) (c : Registry σ) :
    Registry σ × Option Err :=
  match env.resolveTypes c.cache with
  | (cache', some e) => ({ c with cache := cache' }, some e)
  | (cache', none) =>
    match document.schemaDefinition with
    | none => ({ c with cache := cache' }, none)
    | some definition => buildSchemaFromAST env definition false { c with cache := cache' }

/-- The observable outcome of `Make`: the returned schema, the returned
error, and the dependency maps printed to stdout. -/
structure MakeResult where
  schema : Schema
  err : Option Err
  printed : List DepMap
deriving DecidableEq, Repr

/-- `ExecutableSchema.Make`: concatenate the type definitions, create the
registry, record the dependency map, resolve the definitions; return the
schema stored by an explicit schema declaration if any, otherwise build a
schema config from the conventional root names (`Query` required,
`Mutation`/`Subscription` looked up with the error discarded) and call
`graphql.NewSchema` — printing the dependency map, and returning the schema
with a `nil` error, when that final call fails. -/
def Make (env : Env σ) (ctx : Context) (c : ExecutableSchema) : MakeResult :=
  match env.concatenateTypeDefs c.typeDefs with
  | (_, some e) => ⟨emptySchema, some e, []⟩
  | (document, none) =>
    match newRegistry env ctx c.resolvers c.schemaDirectives c.extensions document with
    | (_, some e) => ⟨emptySchema, some e, []⟩
    | (registry, none) =>
      let registry := { registry with dependencyMap := env.identifyDependencies registry.cache }
      match resolveDefinitions env document registry with
      | (_, some e) => ⟨emptySchema, some e, []⟩
      | (registry, none) =>
        match registry.schema with
        | some schema => ⟨schema, none, []⟩
        | none =>
          match env.getObject registry.cache DefaultRootQueryName with
          | (.error e, _) => ⟨emptySchema, some e, []⟩
          | (.ok query, cache1) =>
            match env.getObject cache1 DefaultRootMutationName with
            | (mres, cache2) =>
              match env.getObject cache2 DefaultRootSubscriptionName with
              | (sres, cache3) =>
                let schemaConfig : SchemaConfig :=
                  { query := some query, mutation := rootOrNil mres,
                    subscription := rootOrNil sres,
                    types := env.typeArray cache3,
                    directives := env.directiveArray cache3,
                    extensions := c.extensions }
                match env.newSchema schemaConfig with
                | (schema, some _) => ⟨schema, none, [registry.dependencyMap]⟩
                | (schema, none) => ⟨schema, none, []⟩

/-- `MakeExecutableSchema`: shorthand for `config.Make(context.Background())`. -/
def MakeExecutableSchema (env : Env σ) (config : ExecutableSchema) : MakeResult :=
  Make env Context.background config

/-- `MakeExecutableSchemaWithContext`: `config.Make(ctx)`. -/
def MakeExecutableSchemaWithContext (env : Env σ) (ctx : Context)
    (config : ExecutableSchema) : MakeResult :=
  Make env ctx config

/-! Concrete sample instantiations of the abstract environment, used to
evaluate the assembly pipeline on closed inputs. -/

/-- Error produced by the sample failing `graphql.NewSchema`. -/
def eNS : Err := ⟨"schema construction failed"⟩

/-- Error produced by the sample `getObject` for an unknown name. -/
def eMissing : Err := ⟨"object not found"⟩

/-- A sample configuration value. -/
def sampleConfig : ExecutableSchema :=
  { typeDefs := TypeDefs.str "type Query", resolvers := [("Query.hello", "resolverA")],
    schemaDirectives := [], extensions := [] }

/-- A merged document with no explicit schema declaration. -/
def docInferred : Document := { definitions := ["Query"], schemaDefinition := none }

/-- An explicit schema declaration whose query root is the type `Foo`. -/
def sd0 : SchemaDefinition :=
  { operationTypes := [⟨OperationType.query, "Foo"⟩], directives := [] }

/-- A merged document holding the explicit schema declaration `sd0`,
alongside a type literally named `Query`. -/
def docExplicit : Document := { definitions := ["Foo", "Query"], schemaDefinition := some sd0 }

/-- A sample dependency map. -/
def sampleDepMap : DepMap := [("Query", ["String"])]

/-- Sample `getObject`: the types `Foo` and `Query` exist, everything else is
an unresolved reference. -/
def sampleGetObject (cache : Unit) (name : String) : Except Err GObject × Unit :=
  if name = "Foo" ∨ name = "Query" then (.ok (name ++ "Object"), cache)
  else (.error eMissing, cache)

/-- A sample succeeding `graphql.NewSchema`: records the config it received. -/
def goodNewSchema (config : SchemaConfig) : Schema × Option Err :=
  ({ query := config.query, mutation := config.mutation,
     subscription := config.subscription, typeMap := config.types,
     directives := config.directives }, none)

/-- The non-zero schema value the sample failing `NewSchema` returns next to
its error. -/
def partialSchema : Schema := { query := some "QueryObject" }

/-- Environment: inferred-root document, every step succeeds except the final
`graphql.NewSchema`, which fails with `eNS` returning `partialSchema`. -/
def envInferredBug : Env Unit :=
  { concatenateTypeDefs := fun _ => (docInferred, none),
    newRegistryCache := fun _ _ _ _ _ => ((), none),
    identifyDependencies := fun _ => sampleDepMap,
    resolveTypes := fun cache => (cache, none),
    getObject := sampleGetObject,
    typeArray := fun _ => ["Query", "String"],
    directiveArray := fun _ => ["deprecated"],
    applyDirectives := fun cache config _ _ _ => (.ok config, cache),
    newSchema := fun _ => (partialSchema, some eNS) }

/-- Environment: explicit-schema document, every step succeeds except the
final `graphql.NewSchema`. -/
def envExplicitFail : Env Unit :=
  { envInferredBug with concatenateTypeDefs := fun _ => (docExplicit, none) }

/-- Environment: inferred-root document, every step succeeds. -/
def envInferredOk : Env Unit :=
  { envInferredBug with newSchema := goodNewSchema }

/-- Environment: explicit-schema document, every step succeeds. -/
def envExplicitOk : Env Unit :=
  { envInferredBug with
    concatenateTypeDefs := fun _ => (docExplicit, none),
    newSchema := goodNewSchema }

/-- A fresh sample registry value. -/
def sampleRegistry : Registry Unit :=
  { cache := (), dependencyMap := [], schema := none, extensions := [] }

/-- An explicit schema declaration whose query root names an undeclared
type `Bar`. -/
def sdBad : SchemaDefinition :=
  { operationTypes := [⟨OperationType.query, "Bar"⟩], directives := [] }

/-- Environment: inferred-root document where no object type can be
obtained at all (every `getObject` lookup fails). -/
def envNoQuery : Env Unit :=
  { envInferredOk with getObject := fun cache _ => (.error eMissing, cache) }

/-- The schema config the sample explicit-path run hands to `NewSchema`. -/
def cfgMid : SchemaConfig :=
  { query := some "FooObject", mutation := none, subscription := none,
    types := ["Query", "String"], directives := ["deprecated"], extensions := [] }

/-- Claim C9: `MakeExecutableSchema` equals `Make` at the background context,
`MakeExecutableSchemaWithContext` equals `Make` at the supplied context, and
the two wrappers agree at the background context. -/
theorem make_wrappers_agree (env : Env σ) (config : ExecutableSchema) :
    MakeExecutableSchema env config = Make env Context.background config ∧
    (∀ ctx : Context, MakeExecutableSchemaWithContext env ctx config = Make env ctx config) ∧
    MakeExecutableSchema env config = MakeExecutableSchemaWithContext env Context.background config := by
  exact ⟨rfl, fun _ => rfl, rfl⟩

/-- The operation-type loop only writes the three root fields: the `types`,
`directives` and `extensions` fields of the config it returns are those of
the config it was given. -/
theorem applyOperationTypes_preserves (env : Env σ) :
    ∀ (ops : List OperationTypeDef) (cache : σ) (config : SchemaConfig),
      ((applyOperationTypes env ops cache config).2.1).types = config.types ∧
      ((applyOperationTypes env ops cache config).2.1).directives = config.directives ∧
      ((applyOperationTypes env ops cache config).2.1).extensions = config.extensions := by
  intro ops
  induction ops with
  | nil => intro cache config; exact ⟨rfl, rfl, rfl⟩
  | cons op rest ih =>
    intro cache config
    obtain ⟨opk, name⟩ := op
    cases opk <;> simp only [applyOperationTypes] <;> split <;>
      first
        | exact ih _ _
        | exact ⟨rfl, rfl, rfl⟩

/-- The operation-type loop consults the environment only through
`getObject`: two environments with the same `getObject` run it identically. -/
theorem applyOperationTypes_congr (env env' : Env σ)
    (hget : env.getObject = env'.getObject) :
    ∀ (ops : List OperationTypeDef) (cache : σ) (config : SchemaConfig),
      applyOperationTypes env ops cache config =
        applyOperationTypes env' ops cache config := by
  intro ops
  induction ops with
  | nil => intro cache config; rfl
  | cons op rest ih =>
    intro cache config
    obtain ⟨opk, name⟩ := op
    cases opk <;> simp only [applyOperationTypes, hget] <;> split <;>
      first
        | exact ih _ _
        | rfl

/-- Claim C8: assembly is deterministic — two invocations of `Make` on equal
environments, contexts and configurations return equal results (the same
schema on success, the same error and the same diagnostics on failure). -/
theorem make_deterministic (env env' : Env σ) (ctx ctx' : Context)
    (c c' : ExecutableSchema) (henv : env = env') (hctx : ctx = ctx')
    (hc : c = c') : Make env ctx c = Make env' ctx' c' := by
  subst henv; subst hctx; subst hc; rfl

/-- Claim C8 witness: two runs of the sample pipeline coincide. -/
theorem make_deterministic_witness :
    Make envInferredOk Context.background sampleConfig =
      Make envInferredOk Context.background sampleConfig :=
  make_deterministic envInferredOk envInferredOk Context.background
    Context.background sampleConfig sampleConfig rfl rfl rfl

/-- Claim C10: `buildSchemaFromAST` assigns the registry's `schema` field
only after every step succeeds — whenever it returns an error the field is
left unchanged, and on success the field holds a schema. -/
theorem buildSchemaFromAST_schema_assignment (env : Env σ)
    (definition : SchemaDefinition) (allowThunks : Bool) (c : Registry σ) :
    ((buildSchemaFromAST env definition allowThunks c).2 ≠ none →
      (buildSchemaFromAST env definition allowThunks c).1.schema = c.schema) ∧
    ((buildSchemaFromAST env definition allowThunks c).2 = none →
      ((buildSchemaFromAST env definition allowThunks c).1.schema).isSome = true) := by
  rcases happ : applyOperationTypes env definition.operationTypes c.cache
      { query := none, mutation := none, subscription := none,
        types := env.typeArray c.cache, directives := env.directiveArray c.cache,
        extensions := c.extensions } with ⟨cache1, config1, eopt⟩
  cases eopt with
  | some e => constructor <;> intro h <;> simp_all [buildSchemaFromAST, happ]
  | none =>
    rcases hdir : env.applyDirectives cache1 config1 definition.directives
        definition allowThunks with ⟨res, cache2⟩
    cases res with
    | error e => constructor <;> intro h <;> simp_all [buildSchemaFromAST, happ, hdir]
    | ok config2 =>
      rcases hns : env.newSchema config2 with ⟨schema, eopt2⟩
      cases eopt2 <;> constructor <;> intro h <;>
        simp_all [buildSchemaFromAST, happ, hdir, hns]

/-- Claim C10 witness: on a failing run the schema field stays `none`; on a
succeeding run it is assigned. -/
theorem buildSchemaFromAST_schema_assignment_witness :
    (buildSchemaFromAST envInferredBug sd0 false sampleRegistry).1.schema
        = sampleRegistry.schema ∧
    ((buildSchemaFromAST envExplicitOk sd0 false sampleRegistry).1.schema).isSome
        = true :=
  ⟨(buildSchemaFromAST_schema_assignment envInferredBug sd0 false sampleRegistry).1
      (by decide),
   (buildSchemaFromAST_schema_assignment envExplicitOk sd0 false sampleRegistry).2
      (by decide)⟩

/-- Claim C5: with an explicit `SchemaDefinition`, each declared operation
root is set to the object `getObject` returns for the declared type name (a
successful lookup advances the loop with the corresponding root field
assigned); the first failing lookup aborts `buildSchemaFromAST` immediately
with that error; and when root wiring, schema-level directive application
and `graphql.NewSchema` all succeed, the built schema is stored in the
registry. -/
theorem buildSchemaFromAST_explicit_wiring (env : Env σ) :
    (∀ (name : String) (rest : List OperationTypeDef) (cache cache' : σ)
        (config : SchemaConfig) (object : GObject),
      env.getObject cache name = (.ok object, cache') →
      applyOperationTypes env (⟨.query, name⟩ :: rest) cache config =
          applyOperationTypes env rest cache' { config with query := some object } ∧
      applyOperationTypes env (⟨.mutation, name⟩ :: rest) cache config =
          applyOperationTypes env rest cache' { config with mutation := some object } ∧
      applyOperationTypes env (⟨.subscription, name⟩ :: rest) cache config =
          applyOperationTypes env rest cache' { config with subscription := some object }) ∧
    (∀ (definition : SchemaDefinition) (allowThunks : Bool) (c : Registry σ)
        (op : OperationTypeDef) (rest : List OperationTypeDef) (e : Err) (cache' : σ),
      definition.operationTypes = op :: rest →
      env.getObject c.cache op.typeName = (.error e, cache') →
      buildSchemaFromAST env definition allowThunks c = ({ c with cache := cache' }, some e)) ∧
    (∀ (definition : SchemaDefinition) (allowThunks : Bool) (c : Registry σ)
        (cache1 cache2 : σ) (config1 config2 : SchemaConfig) (schema : Schema),
      applyOperationTypes env definition.operationTypes c.cache
          { query := none, mutation := none, subscription := none,
            types := env.typeArray c.cache, directives := env.directiveArray c.cache,
            extensions := c.extensions } = (cache1, config1, none) →
      env.applyDirectives cache1 config1 definition.directives definition allowThunks
          = (.ok config2, cache2) →
      env.newSchema config2 = (schema, none) →
      buildSchemaFromAST env definition allowThunks c =
          ({ c with cache := cache2, schema := some schema }, none)) := by
  refine ⟨?_, ?_, ?_⟩
  · intro name rest cache cache' config object hg
    refine ⟨?_, ?_, ?_⟩ <;> simp [applyOperationTypes, hg]
  · intro definition allowThunks c op rest e cache' hops hg
    obtain ⟨opk, name⟩ := op
    cases opk <;> simp_all [buildSchemaFromAST, hops, applyOperationTypes]
  · intro definition allowThunks c cache1 cache2 config1 config2 schema happ hdir hns
    simp [buildSchemaFromAST, happ, hdir, hns]

/-- Claim C5 witness: on the sample pipeline, an ok lookup wires the query
root, a failing lookup aborts with the lookup error, and a fully successful
run stores the built schema. -/
theorem buildSchemaFromAST_explicit_wiring_witness :
    applyOperationTypes envExplicitOk [⟨OperationType.query, "Foo"⟩] () {} =
        applyOperationTypes envExplicitOk [] () { query := some "FooObject" } ∧
    buildSchemaFromAST envInferredBug sdBad true sampleRegistry =
        ({ sampleRegistry with cache := () }, some eMissing) ∧
    buildSchemaFromAST envExplicitOk sd0 false sampleRegistry =
        ({ sampleRegistry with
           cache := (),
           schema := some { query := some "FooObject", mutation := none,
                            subscription := none, typeMap := ["Query", "String"],
                            directives := ["deprecated"] } }, none) :=
  ⟨((buildSchemaFromAST_explicit_wiring envExplicitOk).1 "Foo" [] () () {}
      "FooObject" (by decide)).1,
   (buildSchemaFromAST_explicit_wiring envInferredBug).2.1 sdBad true
      sampleRegistry ⟨OperationType.query, "Bar"⟩ [] eMissing () (by decide) (by decide),
   (buildSchemaFromAST_explicit_wiring envExplicitOk).2.2 sd0 false
      sampleRegistry () ()
      { query := some "FooObject", mutation := none, subscription := none,
        types := ["Query", "String"], directives := ["deprecated"], extensions := [] }
      { query := some "FooObject", mutation := none, subscription := none,
        types := ["Query", "String"], directives := ["deprecated"], extensions := [] }
      { query := some "FooObject", mutation := none, subscription := none,
        typeMap := ["Query", "String"], directives := ["deprecated"] }
      (by decide) (by decide) (by decide)⟩

/-- Claim C2: when the merged document carries an explicit schema
declaration (here `schema` with `query: Foo`), `Make` returns the schema
the registry stored from that declaration — whose query root is the object
obtained for the declared name `Foo` — and the conventional default root
names are never consulted, even though a type literally named `Query`
exists (hypothesis `hq`, unused by the computation). -/
theorem make_explicit_schema_wins (env : Env σ) (ctx : Context)
    (c : ExecutableSchema) (document : Document) (definition : SchemaDefinition)
    (fooObject queryObject : GObject) (cache0 cache1 cache2 cache3 : σ)
    (config2 : SchemaConfig) (schema : Schema)
    (h1 : env.concatenateTypeDefs c.typeDefs = (document, none))
    (h2 : document.schemaDefinition = some definition)
    (h3 : definition.operationTypes = [⟨OperationType.query, "Foo"⟩])
    (h4 : env.newRegistryCache ctx c.resolvers c.schemaDirectives c.extensions document
        = (cache0, none))
    (h5 : env.resolveTypes cache0 = (cache1, none))
    (h6 : env.getObject cache1 "Foo" = (.ok fooObject, cache2))
    (hq : env.getObject cache1 DefaultRootQueryName = (.ok queryObject, cache1))
    (h8 : env.applyDirectives cache2
        { query := some fooObject, mutation := none, subscription := none,
          types := env.typeArray cache1, directives := env.directiveArray cache1,
          extensions := c.extensions } definition.directives definition false
        = (.ok config2, cache3))
    (h9 : env.newSchema config2 = (schema, none)) :
    Make env ctx c = ⟨schema, none, []⟩ := by
  simp [Make, newRegistry, resolveDefinitions, buildSchemaFromAST,
    applyOperationTypes, h1, h2, h3, h4, h5, h6, h8, h9]

/-- Claim C2 witness: on the sample explicit-schema pipeline, where a type
named `Query` exists alongside the declared root `Foo`, `Make` returns the
schema whose query root is `FooObject`. -/
theorem make_explicit_schema_wins_witness :
    Make envExplicitOk Context.background sampleConfig =
      ⟨{ query := some "FooObject", mutation := none, subscription := none,
         typeMap := ["Query", "String"], directives := ["deprecated"] }, none, []⟩ :=
  make_explicit_schema_wins envExplicitOk Context.background sampleConfig
    docExplicit sd0 "FooObject" "QueryObject" () () () ()
    { query := some "FooObject", mutation := none, subscription := none,
      types := ["Query", "String"], directives := ["deprecated"], extensions := [] }
    { query := some "FooObject", mutation := none, subscription := none,
      typeMap := ["Query", "String"], directives := ["deprecated"] }
    (by decide) (by decide) (by decide) (by decide) (by decide) (by decide)
    (by decide) (by decide) (by decide)

/-- Claim C3: in the inferred-schema path (no explicit schema declaration),
a failing `Query` lookup makes `Make` fail with that error, while failing
`Mutation` and `Subscription` lookups are discarded: assembly succeeds and
the config handed to `graphql.NewSchema` has those roots unset (`none`). -/
theorem make_inferred_roots (env : Env σ) (ctx : Context) (c : ExecutableSchema)
    (document : Document) (cache0 cache1 : σ)
    (h1 : env.concatenateTypeDefs c.typeDefs = (document, none))
    (h2 : document.schemaDefinition = none)
    (h3 : env.newRegistryCache ctx c.resolvers c.schemaDirectives c.extensions document
        = (cache0, none))
    (h4 : env.resolveTypes cache0 = (cache1, none)) :
    (∀ (e : Err) (cacheQ : σ),
      env.getObject cache1 DefaultRootQueryName = (.error e, cacheQ) →
      Make env ctx c = ⟨emptySchema, some e, []⟩) ∧
    (∀ (query : GObject) (cache2 cache3 cache4 : σ) (e1 e2 : Err) (schema : Schema),
      env.getObject cache1 DefaultRootQueryName = (.ok query, cache2) →
      env.getObject cache2 DefaultRootMutationName = (.error e1, cache3) →
      env.getObject cache3 DefaultRootSubscriptionName = (.error e2, cache4) →
      env.newSchema
          { query := some query, mutation := none, subscription := none,
            types := env.typeArray cache4, directives := env.directiveArray cache4,
            extensions := c.extensions } = (schema, none) →
      Make env ctx c = ⟨schema, none, []⟩) := by
  constructor
  · intro e cacheQ hget
    simp [Make, newRegistry, resolveDefinitions, h1, h2, h3, h4, hget]
  · intro query cache2 cache3 cache4 e1 e2 schema hget hm hs hns
    simp [Make, newRegistry, resolveDefinitions, rootOrNil,
      h1, h2, h3, h4, hget, hm, hs, hns]

/-- Claim C3 witness: a pipeline with no `Query` object fails with the
lookup error; a pipeline whose `Mutation`/`Subscription` lookups fail still
succeeds, with those roots unset in the resulting schema. -/
theorem make_inferred_roots_witness :
    Make envNoQuery Context.background sampleConfig = ⟨emptySchema, some eMissing, []⟩ ∧
    Make envInferredOk Context.background sampleConfig =
      ⟨{ query := some "QueryObject", mutation := none, subscription := none,
         typeMap := ["Query", "String"], directives := ["deprecated"] }, none, []⟩ :=
  ⟨(make_inferred_roots envNoQuery Context.background sampleConfig docInferred
      () () (by decide) (by decide) (by decide) (by decide)).1 eMissing ()
      (by decide),
   (make_inferred_roots envInferredOk Context.background sampleConfig docInferred
      () () (by decide) (by decide) (by decide) (by decide)).2 "QueryObject"
      () () () eMissing eMissing
      { query := some "QueryObject", mutation := none, subscription := none,
        typeMap := ["Query", "String"], directives := ["deprecated"] }
      (by decide) (by decide) (by decide) (by decide)⟩

/-- Claim C7: in both assembly paths the schema config built for final
schema construction carries the full registry contents — its `types` field
is the registry's complete type array and its `directives` field the
registry's complete directive array.  The inferred path passes that config
to `NewSchema` as is; in the explicit path the operation-type loop provably
preserves both arrays, and the config reaches `NewSchema` with them intact
whenever schema-level directive application leaves them unchanged. -/
theorem make_full_registry_contents (env : Env σ) :
    (∀ (ctx : Context) (c : ExecutableSchema) (document : Document)
        (cache0 cache1 cache2 cache3 cache4 : σ) (query : GObject)
        (mres sres : Except Err GObject) (schema : Schema),
      env.concatenateTypeDefs c.typeDefs = (document, none) →
      document.schemaDefinition = none →
      env.newRegistryCache ctx c.resolvers c.schemaDirectives c.extensions document
          = (cache0, none) →
      env.resolveTypes cache0 = (cache1, none) →
      env.getObject cache1 DefaultRootQueryName = (.ok query, cache2) →
      env.getObject cache2 DefaultRootMutationName = (mres, cache3) →
      env.getObject cache3 DefaultRootSubscriptionName = (sres, cache4) →
      env.newSchema
          { query := some query, mutation := rootOrNil mres,
            subscription := rootOrNil sres, types := env.typeArray cache4,
            directives := env.directiveArray cache4, extensions := c.extensions }
          = (schema, none) →
      Make env ctx c = ⟨schema, none, []⟩) ∧
    (∀ (definition : SchemaDefinition) (allowThunks : Bool) (c : Registry σ)
        (cacheA cacheB : σ) (configA configB : SchemaConfig),
      applyOperationTypes env definition.operationTypes c.cache
          { query := none, mutation := none, subscription := none,
            types := env.typeArray c.cache, directives := env.directiveArray c.cache,
            extensions := c.extensions } = (cacheA, configA, none) →
      env.applyDirectives cacheA configA definition.directives definition allowThunks
          = (.ok configB, cacheB) →
      configA.types = env.typeArray c.cache ∧
      configA.directives = env.directiveArray c.cache ∧
      (configB.types = configA.types → configB.directives = configA.directives →
        ∀ (schema : Schema), env.newSchema configB = (schema, none) →
          buildSchemaFromAST env definition allowThunks c =
              ({ c with cache := cacheB, schema := some schema }, none) ∧
          configB.types = env.typeArray c.cache ∧
          configB.directives = env.directiveArray c.cache)) := by
  constructor
  · intro ctx c document cache0 cache1 cache2 cache3 cache4 query mres sres schema
      h1 h2 h3 h4 hget hm hs hns
    simp [Make, newRegistry, resolveDefinitions, h1, h2, h3, h4, hget, hm, hs, hns]
  · intro definition allowThunks c cacheA cacheB configA configB happ hdir
    have hp := applyOperationTypes_preserves env definition.operationTypes c.cache
      { query := none, mutation := none, subscription := none,
        types := env.typeArray c.cache, directives := env.directiveArray c.cache,
        extensions := c.extensions }
    rw [happ] at hp
    refine ⟨hp.1, hp.2.1, ?_⟩
    intro htp hdp schema hns
    refine ⟨?_, htp.trans hp.1, hdp.trans hp.2.1⟩
    simp [buildSchemaFromAST, happ, hdir, hns]

/-- Claim C7 witness: on a sample inferred run the config handed to
`NewSchema` carries the full arrays; on a sample explicit run the stored
schema carries them. -/
theorem make_full_registry_contents_witness :
    Make envInferredOk Context.background sampleConfig =
      ⟨{ query := some "QueryObject", mutation := none, subscription := none,
         typeMap := ["Query", "String"], directives := ["deprecated"] }, none, []⟩ ∧
    buildSchemaFromAST envExplicitOk sd0 false sampleRegistry =
        ({ sampleRegistry with
           cache := (),
           schema := some { query := some "FooObject", mutation := none,
                            subscription := none, typeMap := ["Query", "String"],
                            directives := ["deprecated"] } }, none) :=
  ⟨(make_full_registry_contents envInferredOk).1 Context.background sampleConfig
      docInferred () () () () () "QueryObject" (.error eMissing) (.error eMissing)
      { query := some "QueryObject", mutation := none, subscription := none,
        typeMap := ["Query", "String"], directives := ["deprecated"] }
      (by decide) (by decide) (by decide) (by decide) (by decide) (by decide)
      (by decide) (by decide),
   (((make_full_registry_contents envExplicitOk).2 sd0 false sampleRegistry () ()
      cfgMid cfgMid (by decide) (by decide)).2.2 rfl rfl
      { query := some "FooObject", mutation := none, subscription := none,
        typeMap := ["Query", "String"], directives := ["deprecated"] }
      (by decide)).1⟩

/-- Claim C4 (amended): the dependency map is printed exactly when
`graphql.NewSchema` fails in the inferred-root path — such a failure prints
the recorded dependency map (and, because the error is swallowed, `Make`
returns a nil error); an inferred-path success prints nothing; and a
`NewSchema` failure in the explicit-declaration path returns that error
with no dump. -/
theorem make_dump_characterization (env : Env σ) (ctx : Context)
    (c : ExecutableSchema) (document : Document) (cache0 : σ)
    (h1 : env.concatenateTypeDefs c.typeDefs = (document, none))
    (h2 : env.newRegistryCache ctx c.resolvers c.schemaDirectives c.extensions document
        = (cache0, none)) :
    (∀ (cache1 cache2 cache3 cache4 : σ) (query : GObject)
        (mres sres : Except Err GObject) (schema : Schema) (e : Err),
      document.schemaDefinition = none →
      env.resolveTypes cache0 = (cache1, none) →
      env.getObject cache1 DefaultRootQueryName = (.ok query, cache2) →
      env.getObject cache2 DefaultRootMutationName = (mres, cache3) →
      env.getObject cache3 DefaultRootSubscriptionName = (sres, cache4) →
      env.newSchema
          { query := some query, mutation := rootOrNil mres,
            subscription := rootOrNil sres, types := env.typeArray cache4,
            directives := env.directiveArray cache4, extensions := c.extensions }
          = (schema, some e) →
      Make env ctx c = ⟨schema, none, [env.identifyDependencies cache0]⟩) ∧
    (∀ (cache1 cache2 cache3 cache4 : σ) (query : GObject)
        (mres sres : Except Err GObject) (schema : Schema),
      document.schemaDefinition = none →
      env.resolveTypes cache0 = (cache1, none) →
      env.getObject cache1 DefaultRootQueryName = (.ok query, cache2) →
      env.getObject cache2 DefaultRootMutationName = (mres, cache3) →
      env.getObject cache3 DefaultRootSubscriptionName = (sres, cache4) →
      env.newSchema
          { query := some query, mutation := rootOrNil mres,
            subscription := rootOrNil sres, types := env.typeArray cache4,
            directives := env.directiveArray cache4, extensions := c.extensions }
          = (schema, none) →
      Make env ctx c = ⟨schema, none, []⟩) ∧
    (∀ (definition : SchemaDefinition) (cache1 cacheA cacheB : σ)
        (configA configB : SchemaConfig) (schema : Schema) (e : Err),
      document.schemaDefinition = some definition →
      env.resolveTypes cache0 = (cache1, none) →
      applyOperationTypes env definition.operationTypes cache1
          { query := none, mutation := none, subscription := none,
            types := env.typeArray cache1, directives := env.directiveArray cache1,
            extensions := c.extensions } = (cacheA, configA, none) →
      env.applyDirectives cacheA configA definition.directives definition false
          = (.ok configB, cacheB) →
      env.newSchema configB = (schema, some e) →
      Make env ctx c = ⟨emptySchema, some e, []⟩) := by
  refine ⟨?_, ?_, ?_⟩
  · intro cache1 cache2 cache3 cache4 query mres sres schema e
      hsd hres hget hm hs hns
    simp [Make, newRegistry, resolveDefinitions, h1, h2, hsd, hres,
      hget, hm, hs, hns]
  · intro cache1 cache2 cache3 cache4 query mres sres schema
      hsd hres hget hm hs hns
    simp [Make, newRegistry, resolveDefinitions, h1, h2, hsd, hres,
      hget, hm, hs, hns]
  · intro definition cache1 cacheA cacheB configA configB schema e
      hsd hres happ hdir hns
    simp [Make, newRegistry, resolveDefinitions, buildSchemaFromAST,
      h1, h2, hsd, hres, happ, hdir, hns]

/-- Claim C4 witness: an inferred-path `NewSchema` failure prints the
dependency map; an inferred-path success prints nothing; an explicit-path
`NewSchema` failure returns the error and prints nothing. -/
theorem make_dump_characterization_witness :
    Make envInferredBug Context.background sampleConfig =
      ⟨partialSchema, none, [sampleDepMap]⟩ ∧
    Make envInferredOk Context.background sampleConfig =
      ⟨{ query := some "QueryObject", mutation := none, subscription := none,
         typeMap := ["Query", "String"], directives := ["deprecated"] }, none, []⟩ ∧
    Make envExplicitFail Context.background sampleConfig =
      ⟨emptySchema, some eNS, []⟩ :=
  ⟨(make_dump_characterization envInferredBug Context.background sampleConfig
      docInferred () (by decide) (by decide)).1 () () () () "QueryObject"
      (.error eMissing) (.error eMissing) partialSchema eNS
      (by decide) (by decide) (by decide) (by decide) (by decide) (by decide),
   (make_dump_characterization envInferredOk Context.background sampleConfig
      docInferred () (by decide) (by decide)).2.1 () () () () "QueryObject"
      (.error eMissing) (.error eMissing)
      { query := some "QueryObject", mutation := none, subscription := none,
        typeMap := ["Query", "String"], directives := ["deprecated"] }
      (by decide) (by decide) (by decide) (by decide) (by decide) (by decide),
   (make_dump_characterization envExplicitFail Context.background sampleConfig
      docExplicit () (by decide) (by decide)).2.2 sd0 () () () cfgMid cfgMid
      partialSchema eNS
      (by decide) (by decide) (by decide) (by decide) (by decide)⟩

/-- Claim C4 counterexample: a concrete run in which final schema
construction (`graphql.NewSchema`, which fails on every config in this
environment) fails in the explicit-declaration path, yet nothing is printed
to the diagnostic stream — refuting "serialized exactly when final schema
construction fails". -/
theorem make_explicit_failure_prints_nothing :
    Make envExplicitFail Context.background sampleConfig =
      ⟨emptySchema, some eNS, []⟩ ∧
    envExplicitFail.newSchema cfgMid = (partialSchema, some eNS) := by decide

/-- Claim C1 (code-bug evidence): when `graphql.NewSchema` fails in the
inferred-root path, `Make` prints the dependency map — acknowledging the
failure — but then returns the partially constructed schema together with a
nil error: `return schema, nil` drops the `NewSchema` error. -/
theorem make_swallows_newschema_error :
    Make envInferredBug Context.background sampleConfig =
      ⟨partialSchema, none, [sampleDepMap]⟩ ∧
    envInferredBug.newSchema
        { query := some "QueryObject", mutation := none, subscription := none,
          types := ["Query", "String"], directives := ["deprecated"],
          extensions := [] } = (partialSchema, some eNS) ∧
    partialSchema ≠ emptySchema := by decide

/-- Two environments agreeing on every construction step, and on the
schema-level directive applicator at `allowThunks = false`, drive `Make` to
the same result: `Make` never invokes that applicator with another flag. -/
theorem Make_congr (env env' : Env σ)
    (hcat : env.concatenateTypeDefs = env'.concatenateTypeDefs)
    (hreg : env.newRegistryCache = env'.newRegistryCache)
    (hdep : env.identifyDependencies = env'.identifyDependencies)
    (hres : env.resolveTypes = env'.resolveTypes)
    (hget : env.getObject = env'.getObject)
    (hta : env.typeArray = env'.typeArray)
    (hda : env.directiveArray = env'.directiveArray)
    (hns : env.newSchema = env'.newSchema)
    (hdir : ∀ (cache : σ) (config : SchemaConfig) (ds : List String)
        (node : SchemaDefinition),
      env.applyDirectives cache config ds node false
          = env'.applyDirectives cache config ds node false)
    (ctx : Context) (c : ExecutableSchema) :
    Make env ctx c = Make env' ctx c := by
  simp only [Make, newRegistry, resolveDefinitions, buildSchemaFromAST,
    hcat, hreg, hdep, hres, hget, hta, hda, hns, hdir,
    applyOperationTypes_congr env env' hget]

/-- Claim C6: the directives attached to an explicit `SchemaDefinition` are
applied by `buildSchemaFromAST` with thunks disallowed — the result of
`Make` is unchanged when the schema-level directive applicator's behavior
at `allowThunks = true` is replaced (here: forced to the
`allowThunks = false` behavior), because every schema-level invocation
passes `allowThunks = false`. -/
theorem make_schema_directives_thunks_disallowed (env : Env σ) (ctx : Context)
    (c : ExecutableSchema) :
    Make env ctx c =
      Make
        { env with
          applyDirectives := fun cache config ds node _ =>
            env.applyDirectives cache config ds node false } ctx c :=
  Make_congr env
    { env with
      applyDirectives := fun cache config ds node _ =>
        env.applyDirectives cache config ds node false }
    rfl rfl rfl rfl rfl rfl rfl rfl (fun _ _ _ _ => rfl) ctx c

end GQLTools
